import Mathlib

/-!
Verification development for the es_mcp repository (an Elasticsearch
MCP-style tool server, a transport client, and a LangGraph agent that
orchestrates planning, tool execution, result summarization and
pagination).

The Python sources are shallowly embedded as pure Lean functions:
  - external collaborators (the Elasticsearch backend, the network, the
    LLM reasoning step) are passed in as explicit oracle parameters;
  - Python dicts that the code reads and writes at fixed keys are
    embedded as structures whose fields are exactly those keys, with
    `Option` marking a key that may be absent (Python `None` and an
    absent key are both embedded as `none` where the code treats them
    alike; deviations are noted at the definition concerned);
  - exceptions are embedded as `Except String`.
Each embedded definition cites the Python definition it translates.
-/

namespace EsMcp

/-! ## String helpers

Python string operations used by the agent.  `String.toLower` from the
core library does not reduce inside the kernel, so lowercasing is
defined directly on the character list. -/

/-- Python `s.lower()` (ASCII case folding, which is all the keyword
tests in the source need). -/
def pyLower (s : String) : String := String.mk (s.data.map Char.toLower)

/-- Python `sub in s`: substring containment. -/
def containsSub (s sub : String) : Bool :=
  (List.range (s.toList.length + 1)).any (fun i => sub.toList.isPrefixOf (s.toList.drop i))

/-! ## Wire framing (es_mcp_server.py lines 140-155, es_mcp_client.py lines 29-47)

Both sides write `pickle.dumps(message)` to the socket with no header,
and the receiver accumulates chunks, after each chunk attempting a
full-buffer decode (`pickle.loads`) to decide whether the message is
complete.  Bytes are embedded as `Nat`. -/

/-- Bytes put on the wire for a serialized message
(`client_socket.sendall(pickle.dumps(request))`, es_mcp_client.py line 29
and es_mcp_server.py line 175): exactly the serialized payload, with no
length header prepended. -/
def sent_frame (payload : List Nat) : List Nat := payload

/-- Receive loop of es_mcp_server.py lines 144-154 and
es_mcp_client.py lines 32-45: append each received chunk to the buffer
and attempt to decode the whole buffer; the first successful decode
determines the message boundary.  `none` models the stream ending with
no successful decode. -/
def recv_attempt_decode {R : Type} (decode : List Nat → Option R) :
    List Nat → List (List Nat) → Option R
  | _, [] => none
  | acc, c :: cs =>
    match decode (acc ++ c) with
    | some r => some r
    | none => recv_attempt_decode decode (acc ++ c) cs

/-- Modelled from the spec (not present in the source): the explicit
length-prefixed framing mandated by spec sections 4.1 and 9 — a
fixed-size (4-byte, big-endian) length header followed by exactly that
many payload bytes. -/
def spec_length_framed (payload : List Nat) : List Nat :=
  [payload.length / 16777216 % 256, payload.length / 65536 % 256,
   payload.length / 256 % 256, payload.length % 256] ++ payload

/-- Concrete decoder used to exhibit the receiver behavior: it decodes
exactly the two-byte buffer `[104, 105]`. -/
def demo_decode : List Nat → Option Nat :=
  fun b => if b = [104, 105] then some 7 else none

/-! ## Server data model (es_mcp_server.py)

`V` is the type of opaque Elasticsearch backend payloads. -/

/-- Request parameter mapping.  The fields are the parameter keys this
codebase ever puts in a request (`index`, `query`, `id`, `page`,
`size`, `sort`); `none` is an absent key.  `query` and `sort` are
opaque Elasticsearch DSL values, carried as strings. -/
structure Params where
  index : Option String
  query : Option String
  id : Option String
  page : Option Nat
  size : Option Nat
  sort : Option String
deriving Repr, DecidableEq

/-- The empty parameter dict `{}`. -/
def Params.empty : Params := ⟨none, none, none, none, none, none⟩

/-- Public metadata of one registered tool (its `description` and
`parameters` entries; the handler is held separately and never
serialized). -/
structure ToolMeta where
  description : String
  parameters : List (String × String)
deriving Repr, DecidableEq

/-- Return value of a registered handler: a Python dict with some of
the keys `status`, `data`, `message`, `available_tools` (the tool
methods return the first three; the `list_tools` lambda returns only
the last). -/
structure ToolResult (V : Type) where
  status : Option String := none
  data : Option V := none
  message : Option String := none
  available_tools : Option (List (String × ToolMeta)) := none
deriving Repr, DecidableEq

/-- Oracle for the external `Elasticsearch` client object
(es_mcp_server.py lines 12-18): each field models one backend call the
tool methods make, returning either an opaque payload or the message of
the exception it raised. -/
structure ESClient (V : Type) where
  cluster_health : Except String V
  cat_indices : Except String V
  search : Option String → Option String → Nat → Nat → Option String → Except String V
  get : Option String → Option String → Except String V
  get_mapping : Option String → Except String V

/-- Python truthiness test `not x` for an optional string: true for
`None` (embedded `none`) and for the empty string. -/
def falsyStr (o : Option String) : Bool := (o.getD ("")) = ""

namespace ElasticsearchTool

variable {V : Type}

/-- ElasticsearchTool.health (es_mcp_server.py lines 20-26). -/
def health (es : ESClient V) : ToolResult V :=
  match es.cluster_health with
  | .ok h => { status := some ("ok"), data := some h }
  | .error e => { status := some ("error"), message := some e }

/-- ElasticsearchTool.indices (es_mcp_server.py lines 28-34). -/
def indices (es : ESClient V) : ToolResult V :=
  match es.cat_indices with
  | .ok r => { status := some ("ok"), data := some r }
  | .error e => { status := some ("error"), message := some e }

/-- ElasticsearchTool.search (es_mcp_server.py lines 36-59).  The
`search_params` construction (index, size, from_, optional query and
sort in the body) is folded into the oracle call. -/
def search (es : ESClient V) (index : Option String) (query : Option String)
    (size : Nat) (from_param : Nat) (sort : Option String) : ToolResult V :=
  if falsyStr index then
    { status := some ("error"), message := some ("Index name is required") }
  else
    match es.search index query size from_param sort with
    | .ok r => { status := some ("ok"), data := some r }
    | .error e => { status := some ("error"), message := some e }

/-- ElasticsearchTool.document (es_mcp_server.py lines 61-70). -/
def document (es : ESClient V) (index : Option String) (doc_id : Option String) :
    ToolResult V :=
  if falsyStr index || falsyStr doc_id then
    { status := some ("error"), message := some ("Both index and id are required") }
  else
    match es.get index doc_id with
    | .ok r => { status := some ("ok"), data := some r }
    | .error e => { status := some ("error"), message := some e }

/-- ElasticsearchTool.mapping (es_mcp_server.py lines 72-81). -/
def mapping (es : ESClient V) (index : Option String) : ToolResult V :=
  if falsyStr index then
    { status := some ("error"), message := some ("Index name is required") }
  else
    match es.get_mapping index with
    | .ok r => { status := some ("ok"), data := some r }
    | .error e => { status := some ("error"), message := some e }

end ElasticsearchTool

/-- Descriptions and parameter schemas of MCPServer.register_tools
(es_mcp_server.py lines 91-138), without the handlers — this is what
the `list_tools` lambda serializes. -/
def tool_descriptors : List (String × ToolMeta) :=
  [("health", { description := "Check Elasticsearch cluster health", parameters := [] }),
   ("indices", { description := "List all indices in Elasticsearch", parameters := [] }),
   ("search", { description := "Search for documents in an index",
                parameters := [("index", "Name of the index to search"),
                               ("query", "Search query in Elasticsearch DSL format"),
                               ("size", "Number of results to return (default: 100)"),
                               ("from", "Starting offset for pagination"),
                               ("sort", "Sort criteria")] }),
   ("document", { description := "Get a specific document by ID",
                  parameters := [("index", "Name of the index"), ("id", "Document ID")] }),
   ("mapping", { description := "Get the mapping for an index",
                 parameters := [("index", "Name of the index")] }),
   ("list_tools", { description := "Get list of available tools and their descriptions",
                    parameters := [] })]

/-- A tool registry: name to handler.  A handler takes the request
params and returns its result, or `.error` for an exception escaping
the handler invocation (including Python TypeErrors from calling the
handler with keyword arguments that do not match its signature). -/
def Registry (V : Type) : Type := List (String × (Params → Except String (ToolResult V)))

/-- MCPServer.register_tools (es_mcp_server.py lines 91-138): the
registered handlers.  Notes on the embedding of Python keyword-argument
binding (`tool["handler"](**params)`, line 163):
  - a request key absent from the handler signature, or a required
    positional argument left unbound, raises a TypeError in Python; it
    is embedded as `.error` with a representative message;
  - `document` is registered with parameter schema key `id` but its
    Python signature names the argument `doc_id`, so calling it through
    the dispatcher always raises a TypeError (unexpected keyword `id`
    when the key is present, missing argument `doc_id` when absent);
  - extra keys on the no-argument handlers likewise raise; the embedded
    guards mirror that;
  - a key that is present with value `None` is not distinguished from
    an absent key (both are `none`); for `search`/`mapping` the absent
    interpretation (TypeError) is used here, while the tool functions
    above are about explicit `None`/empty arguments. -/
def register_tools {V : Type} (es : ESClient V) : Registry V :=
  [("health", fun p => if p = Params.empty then .ok (ElasticsearchTool.health es)
      else .error ("TypeError: health() got an unexpected keyword argument")),
   ("indices", fun p => if p = Params.empty then .ok (ElasticsearchTool.indices es)
      else .error ("TypeError: indices() got an unexpected keyword argument")),
   ("search", fun p =>
      if p.id.isSome || p.page.isSome then
        .error ("TypeError: search() got an unexpected keyword argument")
      else
        match p.index with
        | none => .error ("TypeError: search() missing 1 required positional argument: index")
        | some idx => .ok (ElasticsearchTool.search es (some idx) p.query (p.size.getD 100) 0 p.sort)),
   ("document", fun p =>
      if p.id.isSome then
        .error ("TypeError: document() got an unexpected keyword argument: id")
      else
        .error ("TypeError: document() missing 1 required positional argument: doc_id")),
   ("mapping", fun p =>
      if p.query.isSome || p.id.isSome || p.page.isSome || p.size.isSome || p.sort.isSome then
        .error ("TypeError: mapping() got an unexpected keyword argument")
      else
        match p.index with
        | none => .error ("TypeError: mapping() missing 1 required positional argument: index")
        | some idx => .ok (ElasticsearchTool.mapping es (some idx))),
   ("list_tools", fun p => if p = Params.empty then .ok { available_tools := some tool_descriptors }
      else .error ("TypeError: lambda got an unexpected keyword argument"))]

/-- The response dict the server sends back (es_mcp_server.py lines
160-172): `status` always present, `data` on success, `message` on
error, `available_tools` on an unknown command. -/
structure WireResp (V : Type) where
  status : String
  data : Option (ToolResult V) := none
  message : Option String := none
  available_tools : Option (List String) := none
deriving Repr, DecidableEq

/-- Python `self.tools.get(command)`: dictionary lookup in the
registry. -/
def lookupTool {V : Type} (tools : Registry V) (command : String) :
    Option (Params → Except String (ToolResult V)) :=
  (tools.find? (fun t => t.1 == command)).map (fun t => t.2)

/-- Request processing of MCPServer.handle_client (es_mcp_server.py
lines 156-172): look the command up; if present invoke the handler,
catching any failure; if absent answer with the unknown-command error
and the full list of registered names. -/
def dispatch {V : Type} (tools : Registry V) (command : String) (params : Params) :
    WireResp V :=
  match lookupTool tools command with
  | some h =>
    match h params with
    | .ok result => { status := "ok", data := some result }
    | .error e => { status := "error", message := some e }
  | none =>
    { status := "error",
      message := some ("Unknown command: " ++ command),
      available_tools := some (tools.map (fun t => t.1)) }

/-! ## Transport client (es_mcp_client.py lines 10-51, duplicated as
MCPClient.send_command in es_langgraph_agent.py lines 21-62) -/

/-- The request dict built by the client, holding a command and params.
`command` is optional because the agent can pass `state.mcp_command`
while it is still `None`. -/
structure Request where
  command : Option String
  params : Params
deriving Repr, DecidableEq

/-- MCPClient.send_command.  The network (connect, send, framed
receive, server round trip) is the oracle `net`: `net n req` is the
outcome of the n-th connection attempt this call would make for
request `req` — a response, or the description of the exception
(refused, reset, timeout, unbound response) the attempt raised.  The
code makes exactly one attempt, so only `net 0` is consulted; on its
failure the synthesized error response of line 49 is returned. -/
def send_command {V : Type} (net : Nat → Request → Except String (WireResp V))
    (command : Option String) (params : Option Params) : WireResp V :=
  let ps := params.getD Params.empty
  let request : Request := { command := command, params := ps }
  match net 0 request with
  | .ok r => r
  | .error e => { status := "error", message := some ("Client error: " ++ e) }

/-! ## Agent data model (es_langgraph_agent.py)

`α` is the type of individual search hits (opaque JSON objects in the
source). -/

/-- The `summary` dict attached by `summarize_search_results` (lines
156-163) and by the paginated response of `execute_command` (lines
218-224).  `omitted_hits` is optional because only the former writes
it. -/
structure Summary where
  total_hits : Nat
  shown_hits : Nat
  omitted_hits : Option Nat
  available_pages : Nat
  current_page : Nat
  note : String
deriving Repr, DecidableEq

/-- The Elasticsearch-style `hits` object `data["hits"]`: its inner
`"hits"` list (whose presence the guard of `summarize_search_results`
tests) and the `"total"` entry written by the paginated response. -/
structure HitsObj (α : Type) where
  hits : Option (List α)
  total : Option Nat := none
deriving Repr, DecidableEq

/-- The `data` entry of a response as the agent reads and writes it:
the keys `hits`, `complete_results` and `summary`. -/
structure RespData (α : Type) where
  hits : Option (HitsObj α) := none
  complete_results : Option (List α) := none
  summary : Option Summary := none
deriving Repr, DecidableEq

/-- A response dict as the agent sees it after unpickling. -/
structure Resp (α : Type) where
  status : String
  data : Option (RespData α) := none
  message : Option String := none
deriving Repr, DecidableEq

/-- summarize_search_results (es_langgraph_agent.py lines 140-165). -/
def summarize_search_results {α : Type} (results : Resp α) (max_items : Nat) : Resp α :=
  match results.data with
  | none => results
  | some d =>
    match d.hits with
    | none => results
    | some hobj =>
      match hobj.hits with
      | none => results
      | some original_hits =>
        let total_hits := original_hits.length
        if max_items < total_hits then
          { results with data := some { d with
              complete_results := some original_hits,
              hits := some { hobj with hits := some (original_hits.take max_items) },
              summary := some {
                total_hits := total_hits,
                shown_hits := max_items,
                omitted_hits := some (total_hits - max_items),
                available_pages := (total_hits + max_items - 1) / max_items,
                current_page := 1,
                note := "Showing first " ++ toString max_items ++ " of " ++
                  toString total_hits ++
                  " results. You can view more results by asking for the next page." } } }
        else results

/-- get_page_from_results (es_langgraph_agent.py lines 167-171):
the Python slice `complete_results[start_idx:end_idx]` is
`drop start_idx` then `take (end_idx - start_idx)`. -/
def get_page_from_results {α : Type} (complete_results : List α) (page : Nat)
    (page_size : Nat) : List α :=
  let start_idx := (page - 1) * page_size
  let end_idx := start_idx + page_size
  (complete_results.drop start_idx).take (end_idx - start_idx)

/-- The `context["last_search"]` cache entry written by execute_command
(lines 242-247).  All fields are optional because `analyze_query` and
`execute_command` read them with `.get`/membership tests. -/
structure SearchCacheEntry (α : Type) where
  index : Option String := none
  query : Option String := none
  complete_results : Option (List α) := none
  current_page : Option Nat := none
deriving Repr, DecidableEq

/-- The `context["last_document"]` cache entry (lines 253-257). -/
structure DocCacheEntry (α : Type) where
  index : Option String := none
  id : Option String := none
  content : Option (RespData α) := none
deriving Repr, DecidableEq

/-- Agent `context` dict, with the three keys the code writes. -/
structure Context (α : Type) where
  last_search : Option (SearchCacheEntry α) := none
  last_indices : Option (RespData α) := none
  last_document : Option (DocCacheEntry α) := none
deriving Repr, DecidableEq

/-- AgentState (es_langgraph_agent.py lines 73-93).  The
`ConversationBufferMemory` field is an external collaborator only ever
passed to the LLM prompts; it is omitted, which no claim here
touches. -/
structure AgentState (α : Type) where
  query : String
  thoughts : List String := []
  mcp_command : Option String := none
  mcp_params : Params := Params.empty
  response : Option (Resp α) := none
  answer : Option String := none
  context : Context α := {}
  task_list : List String := []
  current_task : Option String := none
  task_status : String := "planning"
deriving Repr, DecidableEq

/-- Parsed structured output of the reasoning (LLM) step in
`analyze_query` (`json.loads(response.content)`, lines 192-196):
thoughts, a command name and a parameter dict.  A JSON parse failure
would propagate as an uncaught exception in the source (spec section 7
marks this a defect); claims here only concern well-formed outputs, so
the oracle returns a parsed value. -/
structure LLMAnalyze where
  thoughts : List String
  command : String
  parameters : Params
deriving Repr, DecidableEq

/-- The keyword test of analyze_query line 178:
`any(x in state.current_task.lower() for x in ["next page", "page", "more results"])`. -/
def hasPaginationKeyword (t : String) : Bool :=
  ["next page", "page", "more results"].any (fun x => containsSub (pyLower t) x)

/-- analyze_query (es_langgraph_agent.py lines 173-197).  `llm` is the
reasoning-step oracle: it sees the whole state (the prompt is built
from the query, tools, chat history and context) and returns the
parsed structured output.  The pagination short-circuit of lines
178-183 replaces `mcp_params` with a fresh one-key dict and returns
without consulting `llm`; when its inner cache test fails, control
falls through to the normal analysis. -/
def analyze_query {α : Type} (llm : AgentState α → LLMAnalyze)
    (state : AgentState α) : AgentState α :=
  let normal : AgentState α :=
    let result := llm state
    { state with
        thoughts := state.thoughts ++ result.thoughts,
        mcp_command := some result.command,
        mcp_params := result.parameters }
  match state.current_task with
  | some t =>
    if hasPaginationKeyword t then
      match state.context.last_search with
      | some cache =>
        let current_page := cache.current_page.getD 1
        { state with
            mcp_command := some ("page"),
            mcp_params := { Params.empty with page := some (current_page + 1) } }
      | none => normal
    else normal
  | none => normal

/-- The paginated response dict built by execute_command lines 211-226. -/
def paginated_response {α : Type} (complete_results : List α) (page : Nat) : Resp α :=
  let page_results := get_page_from_results complete_results page 5
  { status := "ok",
    data := some {
      hits := some { hits := some page_results, total := some complete_results.length },
      complete_results := none,
      summary := some {
        total_hits := complete_results.length,
        shown_hits := page_results.length,
        omitted_hits := none,
        available_pages := (complete_results.length + 4) / 5,
        current_page := page,
        note := "Showing page " ++ toString page ++ " of results" } } }

/-- The non-pagination part of execute_command (es_langgraph_agent.py
lines 229-259): send the pending command through the transport client
(the oracle `mcp` abstracts `mcp_client.send_command`), store the
response, and update the context by command type.  Where Python would
raise a KeyError on a `status="ok"` response lacking a `data` key
(lines 235, 241, 256 index into it), the context is left unchanged;
no reachable server response takes that shape and no claim exercises
it. -/
def execute_normal {α : Type} (mcp : Option String → Params → Resp α)
    (state : AgentState α) : AgentState α :=
  let resp := mcp state.mcp_command state.mcp_params
  let st := { state with response := some resp }
  if resp.status = "ok" then
    if state.mcp_command = some ("indices") then
      { st with context := { st.context with last_indices := resp.data } }
    else if state.mcp_command = some ("search") then
      let summarized := summarize_search_results resp 5
      let ctx :=
        match summarized.data with
        | some d =>
          match d.complete_results with
          | some cr =>
            { st.context with last_search := some {
                index := state.mcp_params.index,
                query := state.mcp_params.query,
                complete_results := some cr,
                current_page := some 1 } }
          | none => st.context
        | none => st.context
      { st with context := ctx, response := some summarized }
    else if state.mcp_command = some ("document") then
      { st with context := { st.context with last_document := some {
          index := state.mcp_params.index,
          id := state.mcp_params.id,
          content := resp.data } } }
    else st
  else st

/-- execute_command (es_langgraph_agent.py lines 199-259).  The
pagination branch (lines 202-227) serves the page from the cache and
returns, touching neither the context nor the transport oracle; every
other path is `execute_normal`.  The `int(...)` wrapper Python applies
to the page number is the identity on the embedded `Nat`. -/
def execute_command {α : Type} (mcp : Option String → Params → Resp α)
    (state : AgentState α) : AgentState α :=
  match state.current_task, state.context.last_search with
  | some t, some cache =>
    if containsSub (pyLower t) "page" then
      match cache.complete_results with
      | some complete_results =>
        let page := state.mcp_params.page.getD 2
        { state with response := some (paginated_response complete_results page) }
      | none => execute_normal mcp state
    else execute_normal mcp state
  | _, _ => execute_normal mcp state

/-! ## Concrete instances used by the witness theorems -/

/-- Backend oracle whose calls all succeed. -/
def es_ok_demo : ESClient Nat :=
  { cluster_health := .ok 1, cat_indices := .ok 2,
    search := fun _ _ _ _ _ => .ok 3, get := fun _ _ => .ok 4,
    get_mapping := fun _ => .ok 5 }

/-- Backend oracle whose health call raises. -/
def es_err_demo : ESClient Nat :=
  { cluster_health := .error ("es down"), cat_indices := .ok 2,
    search := fun _ _ _ _ _ => .ok 3, get := fun _ _ => .ok 4,
    get_mapping := fun _ => .ok 5 }

/-- A one-tool registry whose handler always fails. -/
def failing_registry : Registry Nat :=
  [("boom", fun _ => .error ("handler failure"))]

/-- A network oracle on which every connection attempt fails. -/
def net_fail_demo : Nat → Request → Except String (WireResp Nat) :=
  fun _ _ => .error ("Connection refused")

/-- A reasoning-step oracle with a fixed parsed output. -/
def llm_demo : AgentState Nat → LLMAnalyze :=
  fun _ => { thoughts := [], command := "health", parameters := Params.empty }

/-- A transport oracle that only reports it was consulted. -/
def mcp_err_demo : Option String → Params → Resp Nat :=
  fun _ _ => { status := "error", message := some ("remote was called") }

/-- A search response carrying twelve hits. -/
def resp12_demo : Resp Nat :=
  { status := "ok",
    data := some { hits := some { hits := some (List.range 12), total := none },
                   complete_results := none, summary := none },
    message := none }

/-- A transport oracle always answering with `resp12_demo`. -/
def mcp12_demo : Option String → Params → Resp Nat := fun _ _ => resp12_demo

/-- A cache entry holding twelve complete results at page 1. -/
def cache12_demo : SearchCacheEntry Nat :=
  { index := some ("logs"), query := none,
    complete_results := some (List.range 12), current_page := some 1 }

/-- Agent state with a pagination-intent task and `cache12_demo` cached. -/
def paging_state_demo : AgentState Nat :=
  { query := "q",
    current_task := some ("show me the next page"),
    mcp_command := some ("page"),
    mcp_params := { Params.empty with page := some 2 },
    context := { last_search := some cache12_demo } }

/-- Agent state about to execute a fresh search. -/
def search_state_demo : AgentState Nat :=
  { query := "find logs",
    current_task := some ("search the logs"),
    mcp_command := some ("search"),
    mcp_params := { Params.empty with index := some ("logs-api") } }

/-! ## Helper lemmas -/

/-- Unchanged pass-through case of `summarize_search_results`. -/
theorem summarize_eq_self_of_le {α : Type} (results : Resp α) (d : RespData α)
    (hobj : HitsObj α) (l : List α) (m : Nat)
    (hd : results.data = some d) (hh : d.hits = some hobj) (hl : hobj.hits = some l)
    (hle : l.length ≤ m) :
    summarize_search_results results m = results := by
  simp [summarize_search_results, hd, hh, hl, Nat.not_lt.mpr hle]

/-- Truncating case of `summarize_search_results`, as a record equality. -/
theorem summarize_eq_of_many {α : Type} (results : Resp α) (d : RespData α)
    (hobj : HitsObj α) (l : List α) (m : Nat)
    (hd : results.data = some d) (hh : d.hits = some hobj) (hl : hobj.hits = some l)
    (hm : m < l.length) :
    summarize_search_results results m =
      { results with data := some { d with
          complete_results := some l,
          hits := some { hobj with hits := some (l.take m) },
          summary := some {
            total_hits := l.length,
            shown_hits := m,
            omitted_hits := some (l.length - m),
            available_pages := (l.length + m - 1) / m,
            current_page := 1,
            note := "Showing first " ++ toString m ++ " of " ++
              toString l.length ++
              " results. You can view more results by asking for the next page." } } } := by
  simp [summarize_search_results, hd, hh, hl, hm]

/-- Retrieval of one page is the length-clipped slice of the cached
list between positions `(k-1)*P` and `k*P`. -/
theorem get_page_eq_slice {α : Type} (l : List α) (k P : Nat) (hk : 1 ≤ k) :
    get_page_from_results l k P = (l.take (k * P)).drop ((k - 1) * P) := by
  obtain ⟨j, rfl⟩ : ∃ j, k = j + 1 := ⟨k - 1, by omega⟩
  show (l.drop ((j + 1 - 1) * P)).take ((j + 1 - 1) * P + P - (j + 1 - 1) * P) = _
  rw [Nat.add_sub_cancel_left, List.drop_take]
  congr 1
  simp [Nat.succ_mul]

/-- A page starting at or past the end of the cached list is empty. -/
theorem get_page_nil_of_beyond {α : Type} (l : List α) (k P : Nat)
    (h : l.length ≤ (k - 1) * P) :
    get_page_from_results l k P = [] := by
  have hdrop : l.drop ((k - 1) * P) = [] := List.drop_eq_nil_of_le h
  simp [get_page_from_results, hdrop]

/-- The word page alone is among the pagination keywords of
`analyze_query`. -/
theorem hasPaginationKeyword_of_page {t : String}
    (h : containsSub (pyLower t) "page" = true) :
    hasPaginationKeyword t = true := by
  simp [hasPaginationKeyword, h]

/-! ## Claims -/

/-- C1: the claim says every wire message is an explicit
length-prefixed frame (fixed-size header, boundary determined from the
header alone).  The code instead writes the bare serialized payload —
`sent_frame` prepends nothing, differing from the spec-mandated
`spec_length_framed` — and the receiver finds the boundary by
re-attempting a decode of the growing buffer, accepting a headerless
message as soon as a decode succeeds. -/
theorem wire_framing_not_length_prefixed :
    sent_frame [104, 105] = [104, 105] ∧
    sent_frame [104, 105] ≠ spec_length_framed [104, 105] ∧
    recv_attempt_decode demo_decode [] [[104], [105]] = some 7 := by
  refine ⟨rfl, by decide, by decide⟩

/-- C2: for a hit list of length `H` and configured `max_items = m`:
if `H ≤ m` the summarization step returns the response unchanged; if
`H > m` it replaces the displayed hit list with exactly the first `m`
hits, retains all `H` hits under `complete_results`, and attaches a
summary with `total_hits = H`, `shown_hits = m`, `omitted_hits = H-m`,
`available_pages = ⌈H/m⌉` and `current_page = 1`. -/
theorem summarize_search_results_spec {α : Type} (results : Resp α) (d : RespData α)
    (hobj : HitsObj α) (l : List α) (m : Nat)
    (hd : results.data = some d) (hh : d.hits = some hobj) (hl : hobj.hits = some l) :
    (l.length ≤ m → summarize_search_results results m = results) ∧
    (m < l.length →
      ∃ d2, (summarize_search_results results m).data = some d2 ∧
        d2.hits = some { hobj with hits := some (l.take m) } ∧
        (l.take m).length = m ∧
        d2.complete_results = some l ∧
        ∃ s, d2.summary = some s ∧
          s.total_hits = l.length ∧
          s.shown_hits = m ∧
          s.omitted_hits = some (l.length - m) ∧
          s.available_pages = l.length ⌈/⌉ m ∧
          s.current_page = 1) := by
  constructor
  · exact fun hle => summarize_eq_self_of_le results d hobj l m hd hh hl hle
  · intro hm
    rw [summarize_eq_of_many results d hobj l m hd hh hl hm]
    refine ⟨_, rfl, rfl, ?_, rfl, _, rfl, rfl, rfl, rfl, rfl, rfl⟩
    simp [List.length_take, Nat.min_eq_left (Nat.le_of_lt hm)]

/-- Witness for C2: on a twelve-hit response with `max_items = 5`, the
summarized response keeps all twelve hits in `complete_results` and
reports three available pages. -/
theorem summarize_search_results_spec_inst :
    ∃ d2, (summarize_search_results resp12_demo 5).data = some d2 ∧
      d2.complete_results = some (List.range 12) ∧
      ∃ s, d2.summary = some s ∧ s.available_pages = 3 := by
  obtain ⟨-, h2⟩ :=
    summarize_search_results_spec resp12_demo _ _ (List.range 12) 5 rfl rfl rfl
  obtain ⟨d2, hd2, -, -, hcr, s, hs, -, -, -, hap, -⟩ := h2 (by decide)
  exact ⟨d2, hd2, hcr, s, hs, by rw [hap]; decide⟩

/-- C3: for a cached list, page size `P` and requested page `k ≥ 1`,
page retrieval returns exactly the bounds-clipped slice
`complete_results[(k-1)*P : k*P]`; a page beyond range yields an empty
slice, and its pagination response still has status ok with an empty
hit list; the pagination branch of the Execute step consults no
transport oracle. -/
theorem get_page_from_results_spec {α : Type} (l : List α) (k P : Nat) (hk : 1 ≤ k) :
    get_page_from_results l k P = (l.take (k * P)).drop ((k - 1) * P) ∧
    (l.length ≤ (k - 1) * P → get_page_from_results l k P = []) ∧
    (l.length ≤ (k - 1) * 5 →
      (paginated_response l k).status = "ok" ∧
      ∃ d hobj, (paginated_response l k).data = some d ∧ d.hits = some hobj ∧
        hobj.hits = some ([] : List α)) ∧
    (∀ (s : AgentState α) (mcp mcp2 : Option String → Params → Resp α) (t : String)
        (cache : SearchCacheEntry α) (cr : List α),
      s.current_task = some t → containsSub (pyLower t) "page" = true →
      s.context.last_search = some cache → cache.complete_results = some cr →
      execute_command mcp s = execute_command mcp2 s) := by
  refine ⟨get_page_eq_slice l k P hk, fun h => get_page_nil_of_beyond l k P h, ?_, ?_⟩
  · intro h
    refine ⟨rfl, _, _, rfl, rfl, ?_⟩
    rw [get_page_nil_of_beyond l k 5 h]
  · intro s mcp mcp2 t cache cr ht hp hc hcr
    simp [execute_command, ht, hp, hc, hcr]

/-- Witness for C3: with twelve cached results and page size 5, page 3
is the slice from index 10 to index 15 and page 4 is empty. -/
theorem get_page_from_results_spec_inst :
    get_page_from_results (List.range 12) 3 5 = ((List.range 12).take 15).drop 10 ∧
    get_page_from_results (List.range 12) 4 5 = [] := by
  refine ⟨(get_page_from_results_spec (List.range 12) 3 5 (by decide)).1, ?_⟩
  exact (get_page_from_results_spec (List.range 12) 4 5 (by decide)).2.1 (by decide)

/-- C4: when the current task contains a pagination keyword and a
search cache entry exists, the Analyze step sets the pending command to
page with parameters requesting `current_page + 1`, independently of
the reasoning oracle (which is never consulted); without a cache entry
the task goes through the normal reasoning-step analysis. -/
theorem analyze_query_pagination_short_circuit {α : Type} (s : AgentState α) (t : String)
    (ht : s.current_task = some t) (hk : hasPaginationKeyword t = true) :
    (∀ (cache : SearchCacheEntry α) (p : Nat), s.context.last_search = some cache →
      cache.current_page = some p →
      ∀ llm, analyze_query llm s =
        { s with mcp_command := some ("page"),
                 mcp_params := { Params.empty with page := some (p + 1) } }) ∧
    (s.context.last_search.isSome = true →
      ∀ llm llm2, analyze_query llm s = analyze_query llm2 s) ∧
    (s.context.last_search = none →
      ∀ llm, analyze_query llm s =
        { s with thoughts := s.thoughts ++ (llm s).thoughts,
                 mcp_command := some (llm s).command,
                 mcp_params := (llm s).parameters }) := by
  refine ⟨?_, ?_, ?_⟩
  · intro cache p hc hp llm
    simp [analyze_query, ht, hk, hc, hp]
  · intro hsome llm llm2
    obtain ⟨cache, hc⟩ := Option.isSome_iff_exists.mp hsome
    simp [analyze_query, ht, hk, hc]
  · intro hnone llm
    simp [analyze_query, ht, hk, hnone]

/-- Witness for C4: on the task show me the next page with a cached
search at page 1, Analyze requests page 2 with the page command. -/
theorem analyze_query_pagination_short_circuit_inst :
    (analyze_query llm_demo paging_state_demo).mcp_command = some ("page") ∧
    (analyze_query llm_demo paging_state_demo).mcp_params.page = some 2 := by
  have h := (analyze_query_pagination_short_circuit paging_state_demo
    "show me the next page" rfl (by decide)).1 cache12_demo 1 rfl rfl llm_demo
  rw [h]
  exact ⟨rfl, rfl⟩

/-- C5: dispatching an unregistered command returns a status error
response whose message is exactly Unknown command followed by the
command name, and whose `available_tools` is the full list of
registered names; a registered handler that raises is caught and
converted to a status error response carrying the failure
description. -/
theorem dispatch_unknown_and_handler_failure {V : Type} :
    (∀ (es : ESClient V) (cmd : String) (params : Params),
      cmd ∉ ["health", "indices", "search", "document", "mapping", "list_tools"] →
      dispatch (register_tools es) cmd params =
        { status := "error",
          message := some ("Unknown command: " ++ cmd),
          available_tools :=
            some ["health", "indices", "search", "document", "mapping", "list_tools"] }) ∧
    (∀ (tools : Registry V) (cmd : String)
        (h : Params → Except String (ToolResult V)) (params : Params) (e : String),
      lookupTool tools cmd = some h → h params = .error e →
      dispatch tools cmd params = { status := "error", message := some e }) := by
  constructor
  · intro es cmd params hcmd
    simp only [List.mem_cons, List.not_mem_nil, or_false, not_or] at hcmd
    obtain ⟨h1, h2, h3, h4, h5, h6⟩ := hcmd
    have g1 : (("health" : String) == cmd) = false := by
      simp [beq_eq_false_iff_ne]; exact fun hh => h1 hh.symm
    have g2 : (("indices" : String) == cmd) = false := by
      simp [beq_eq_false_iff_ne]; exact fun hh => h2 hh.symm
    have g3 : (("search" : String) == cmd) = false := by
      simp [beq_eq_false_iff_ne]; exact fun hh => h3 hh.symm
    have g4 : (("document" : String) == cmd) = false := by
      simp [beq_eq_false_iff_ne]; exact fun hh => h4 hh.symm
    have g5 : (("mapping" : String) == cmd) = false := by
      simp [beq_eq_false_iff_ne]; exact fun hh => h5 hh.symm
    have g6 : (("list_tools" : String) == cmd) = false := by
      simp [beq_eq_false_iff_ne]; exact fun hh => h6 hh.symm
    simp [dispatch, lookupTool, register_tools, List.find?, g1, g2, g3, g4, g5, g6]
  · intro tools cmd h params e hl he
    simp [dispatch, hl, he]

/-- Witness for C5: the command foo is unknown and answered with the
six registered names; a failing handler is converted to a status error
response. -/
theorem dispatch_unknown_and_handler_failure_inst :
    dispatch (register_tools es_ok_demo) "foo" Params.empty =
      { status := "error",
        message := some ("Unknown command: " ++ "foo"),
        available_tools :=
          some ["health", "indices", "search", "document", "mapping", "list_tools"] } ∧
    dispatch failing_registry "boom" Params.empty =
      { status := "error", message := some ("handler failure") } := by
  constructor
  · exact dispatch_unknown_and_handler_failure.1 es_ok_demo "foo" Params.empty (by decide)
  · exact dispatch_unknown_and_handler_failure.2 failing_registry "boom" _
      Params.empty "handler failure" rfl rfl

/-- C6: a connection failure inside the transport client never
propagates: the client returns the locally synthesized status error
response, and the call consults only the first (single) connection
attempt, so no automatic retry happens. -/
theorem send_command_transport_error_local {V : Type} :
    (∀ (net : Nat → Request → Except String (WireResp V)) (c : Option String)
        (p : Option Params) (e : String),
      net 0 { command := c, params := p.getD Params.empty } = .error e →
      send_command net c p =
        { status := "error", message := some ("Client error: " ++ e) }) ∧
    (∀ (net net2 : Nat → Request → Except String (WireResp V)) (c : Option String)
        (p : Option Params),
      net 0 = net2 0 → send_command net c p = send_command net2 c p) := by
  constructor
  · intro net c p e h
    simp [send_command, h]
  · intro net net2 c p h
    simp [send_command, h]

/-- Witness for C6: with every connection attempt refused, the client
returns the synthesized error response. -/
theorem send_command_transport_error_local_inst :
    send_command net_fail_demo (some ("health")) none =
      { status := "error", message := some ("Client error: " ++ "Connection refused") } :=
  send_command_transport_error_local.1 net_fail_demo (some ("health")) none
    "Connection refused" rfl

/-- C7: the search and mapping handlers reject a missing (None) or
empty index with exactly the message Index name is required; the
document handler rejects a missing or empty index or document id with
exactly the message Both index and id are required. -/
theorem handlers_require_index_and_id {V : Type} (es : ESClient V) :
    (∀ (index query sort : Option String) (size from_param : Nat),
      index = none ∨ index = some "" →
      ElasticsearchTool.search es index query size from_param sort =
        { status := some ("error"), message := some ("Index name is required") }) ∧
    (∀ index : Option String, index = none ∨ index = some "" →
      ElasticsearchTool.mapping es index =
        { status := some ("error"), message := some ("Index name is required") }) ∧
    (∀ index doc_id : Option String,
      index = none ∨ index = some "" ∨ doc_id = none ∨ doc_id = some "" →
      ElasticsearchTool.document es index doc_id =
        { status := some ("error"), message := some ("Both index and id are required") }) := by
  refine ⟨?_, ?_, ?_⟩
  · rintro index query sort size fp (rfl | rfl) <;>
      simp [ElasticsearchTool.search, falsyStr]
  · rintro index (rfl | rfl) <;> simp [ElasticsearchTool.mapping, falsyStr]
  · rintro index doc_id (rfl | rfl | rfl | rfl) <;>
      simp [ElasticsearchTool.document, falsyStr]

/-- Witness for C7: an empty index on search and a missing id on
document are rejected with the exact messages. -/
theorem handlers_require_index_and_id_inst :
    ElasticsearchTool.search es_ok_demo (some "") none 100 0 none =
      { status := some ("error"), message := some ("Index name is required") } ∧
    ElasticsearchTool.document es_ok_demo (some ("logs")) none =
      { status := some ("error"), message := some ("Both index and id are required") } := by
  constructor
  · exact (handlers_require_index_and_id es_ok_demo).1 (some "") none none 100 0 (Or.inr rfl)
  · exact (handlers_require_index_and_id es_ok_demo).2.2 (some ("logs")) none
      (Or.inr (Or.inr (Or.inl rfl)))

/-- C8: a handler that returns normally is wrapped in the two-field
envelope with outer status ok and its entire return value under data;
in particular a handler-level backend failure, returned as a value
with inner status error, still travels inside an outer status ok
response. -/
theorem dispatch_ok_envelope {V : Type} :
    (∀ (tools : Registry V) (cmd : String)
        (h : Params → Except String (ToolResult V)) (params : Params) (v : ToolResult V),
      lookupTool tools cmd = some h → h params = .ok v →
      dispatch tools cmd params = { status := "ok", data := some v }) ∧
    (∀ (es : ESClient V) (e : String), es.cluster_health = .error e →
      dispatch (register_tools es) "health" Params.empty =
        { status := "ok",
          data := some { status := some ("error"), message := some e } }) := by
  constructor
  · intro tools cmd h params v hl hv
    simp [dispatch, hl, hv]
  · intro es e he
    simp [dispatch, lookupTool, register_tools, List.find?, ElasticsearchTool.health, he]

/-- Witness for C8: with the backend health call failing, the health
response has outer status ok and the inner error value under data. -/
theorem dispatch_ok_envelope_inst :
    dispatch (register_tools es_err_demo) "health" Params.empty =
      { status := "ok",
        data := some { status := some ("error"), message := some ("es down") } } :=
  dispatch_ok_envelope.2 es_err_demo "es down" rfl

/-- C9: serving a page from the cache leaves the cached search entry
(and the whole context) unchanged; since the entry keeps
`current_page = 1`, every later pagination-intent Analyze step again
computes page `1 + 1 = 2`. -/
theorem execute_page_preserves_cache {α : Type} (s : AgentState α) (t : String)
    (cache : SearchCacheEntry α) (l : List α)
    (ht : s.current_task = some t) (hp : containsSub (pyLower t) "page" = true)
    (hc : s.context.last_search = some cache) (hl : cache.complete_results = some l) :
    (∀ mcp, (execute_command mcp s).context = s.context) ∧
    (cache.current_page = some 1 →
      ∀ mcp llm,
        (analyze_query llm (execute_command mcp s)).mcp_command = some ("page") ∧
        (analyze_query llm (execute_command mcp s)).mcp_params.page = some 2) := by
  have hexec : ∀ mcp : Option String → Params → Resp α, execute_command mcp s =
      { s with response := some (paginated_response l (s.mcp_params.page.getD 2)) } := by
    intro mcp
    simp [execute_command, ht, hc, hp, hl]
  constructor
  · intro mcp
    rw [hexec]
  · intro h1 mcp llm
    rw [hexec]
    have hkw : hasPaginationKeyword t = true := hasPaginationKeyword_of_page hp
    constructor <;> simp [analyze_query, ht, hkw, hc, h1]

/-- Witness for C9: after serving a page from the twelve-hit cache the
context is untouched and the next Analyze step requests page 2
again. -/
theorem execute_page_preserves_cache_inst :
    (execute_command mcp_err_demo paging_state_demo).context = paging_state_demo.context ∧
    (analyze_query llm_demo (execute_command mcp_err_demo paging_state_demo)).mcp_params.page
      = some 2 := by
  have h := execute_page_preserves_cache paging_state_demo "show me the next page"
    cache12_demo (List.range 12) rfl (by decide) rfl rfl
  exact ⟨h.1 mcp_err_demo, (h.2 rfl mcp_err_demo llm_demo).2⟩

/-- C10: executing a search whose response holds more than `max_items`
hits stores the summarized response in the agent state with the full
hit list still present under `complete_results` and the truncated view
under the hits list, and caches the complete list with
`current_page = 1`. -/
theorem execute_search_retains_complete_results {α : Type}
    (s : AgentState α) (mcp : Option String → Params → Resp α)
    (r : Resp α) (d : RespData α) (hobj : HitsObj α) (l : List α)
    (hcmd : s.mcp_command = some ("search"))
    (hnp : ∀ t, s.current_task = some t → containsSub (pyLower t) "page" = false)
    (hr : mcp s.mcp_command s.mcp_params = r)
    (hst : r.status = "ok")
    (hd : r.data = some d) (hh : d.hits = some hobj) (hl : hobj.hits = some l)
    (hlen : 5 < l.length) :
    (execute_command mcp s).response = some (summarize_search_results r 5) ∧
    (∃ d2, (summarize_search_results r 5).data = some d2 ∧
      d2.complete_results = some l ∧
      d2.hits = some { hobj with hits := some (l.take 5) }) ∧
    (execute_command mcp s).context.last_search = some {
      index := s.mcp_params.index, query := s.mcp_params.query,
      complete_results := some l, current_page := some 1 } := by
  have hsum := summarize_eq_of_many r d hobj l 5 hd hh hl hlen
  rw [hcmd] at hr
  have hnorm : execute_command mcp s = execute_normal mcp s := by
    cases hct : s.current_task with
    | none => simp [execute_command, hct]
    | some t =>
      have hpg := hnp t hct
      cases hcs : s.context.last_search with
      | none => simp [execute_command, hct, hcs]
      | some cache => simp [execute_command, hct, hcs, hpg]
  rw [hnorm]
  refine ⟨?_, ⟨_, by rw [hsum], rfl, rfl⟩, ?_⟩ <;>
  · simp only [execute_normal, hcmd]
    rw [hr]
    simp [hst, hsum]

/-- Witness for C10: executing the demo search stores all twelve hits
in the cache entry at page 1, while the stored response keeps them
under `complete_results`. -/
theorem execute_search_retains_complete_results_inst :
    (execute_command mcp12_demo search_state_demo).context.last_search = some {
      index := some ("logs-api"), query := none,
      complete_results := some (List.range 12), current_page := some 1 } := by
  have h := execute_search_retains_complete_results search_state_demo mcp12_demo
    resp12_demo _ _ (List.range 12) rfl
    (by intro t ht; cases ht; decide) rfl rfl rfl rfl rfl (by decide)
  exact h.2.2

end EsMcp
